import Mathlib

/-
Verification of the control-link engine of the tello package (tello.go)
against its natural-language specification.

The Go source is shallowly embedded: pure helpers become Lean functions,
stateful methods become explicit functions on a state record, network and
time effects become explicit environment records and effect traces.
Machine integers are modelled as Nat with explicit `% 2^w` where overflow
matters; float64 axis values are modelled as exact rationals — every
concrete input used in a theorem below is a dyadic rational on which the
float64 computation of the source is exact.
-/

namespace Tello

/-! ## Message constants

Modelled from the spec: the numeric values of the header, packet-type and
message-ID constants are declared in a file of this repository outside the
provided source (`tello.go` only references them).  Only their pairwise
distinctness and the dispatch structure of `controlResponseListener` are
relied upon by any theorem below. -/

/-- Modelled from the spec: fixed marker byte identifying valid frames. -/
def msgHdr : ℕ := 0xcc

/-- Modelled from the spec: packet type for "data2" frames (stick updates). -/
def ptData2 : ℕ := 0x88

/-- Modelled from the spec: packet type for "set" frames (take-off, land). -/
def ptSet : ℕ := 0x68

/-- Modelled from the spec: message ID of the stick-update command. -/
def msgSetStick : ℕ := 0x0050

/-- Modelled from the spec: message ID of the take-off command. -/
def msgDoTakeoff : ℕ := 0x0054

/-- Modelled from the spec: message ID of the land command. -/
def msgDoLand : ℕ := 0x0055

/-- Modelled from the spec: message ID of flight-status telemetry. -/
def msgFlightStatus : ℕ := 0x0056

/-- Modelled from the spec: message ID of light-strength telemetry. -/
def msgLightStrength : ℕ := 0x0035

/-- Modelled from the spec: message ID of log-header packets. -/
def msgLogHeader : ℕ := 0x1050

/-- Modelled from the spec: message ID of wifi-strength telemetry. -/
def msgWifiStrength : ℕ := 0x001a

/-! ## Data model -/

/-- Embedding of the Go `packet` struct: one wire message.  Byte fields are
Nat; `payload` is the byte sequence. -/
structure packet where
  header : ℕ := 0
  toDrone : Bool := false
  packetType : ℕ := 0
  messageID : ℕ := 0
  sequence : ℕ := 0
  payload : List ℕ := []
deriving Repr, DecidableEq

/-- Embedding of the `FlightData` telemetry snapshot, restricted to the
fields the read loop in `tello.go` actually writes. -/
structure FlightData where
  LightStrength : ℕ := 0
  WifiStrength : ℕ := 0
  WifiInterference : ℕ := 0
deriving Repr, DecidableEq

/-- Embedding of the control fields of the Go `Tello` struct
(`ctrlConn`/`ctrlStopChan`/`stickChan` are modelled by Booleans recording
whether they have been allocated). -/
structure TelloState where
  ctrlConnOpen : Bool := false
  ctrlStopChanMade : Bool := false
  ctrlConnecting : Bool := false
  ctrlConnected : Bool := false
  ctrlSeq : ℕ := 0
  ctrlRx : ℚ := 0
  ctrlRy : ℚ := 0
  ctrlLx : ℚ := 0
  ctrlLy : ℚ := 0
  ctrlThrottle : ℚ := 0
  stickChanMade : Bool := false
deriving Repr, DecidableEq

/-! ## Stick encoder (`jsFloatToTello`, `sendStickUpdate` lines 310-343) -/

/-- Embedding of `jsFloatToTello`: `uint64(660*fv + 1024)`.  Go's
float-to-unsigned conversion discards the fractional part (truncation
toward zero); on the contractual axis range `[-1, 1]` the argument is at
least `364 > 0`, so truncation coincides with the floor used here. -/
def jsFloatToTello (fv : ℚ) : ℕ := (⌊660 * fv + 1024⌋).toNat

/-- Embedding of the `packedAxes` computation of `sendStickUpdate`
(lines 329-337): four 11-bit axis fields ored in at bits 0, 11, 22, 33,
then the throttle field at bit 44, forced to `0x7ff` when the throttle
exceeds `0.1`. -/
def packStick (rx ry lx ly throttle : ℚ) : ℕ :=
  if throttle > 1 / 10 then
    (jsFloatToTello rx ||| (jsFloatToTello ry <<< 11) ||| (jsFloatToTello ly <<< 22) |||
      (jsFloatToTello lx <<< 33)) ||| (0x7ff <<< 44)
  else
    (jsFloatToTello rx ||| (jsFloatToTello ry <<< 11) ||| (jsFloatToTello ly <<< 22) |||
      (jsFloatToTello lx <<< 33)) ||| (jsFloatToTello throttle <<< 44)

/-- Embedding of payload bytes 0-5 of `sendStickUpdate` (lines 338-343):
`payload[i] = byte(packedAxes >> 8*i)`.  Bytes 6-10 carry wall-clock time
and are outside the shallow embedding. -/
def stickPayloadBytes (rx ry lx ly throttle : ℚ) : List ℕ :=
  [packStick rx ry lx ly throttle % 256,
   packStick rx ry lx ly throttle >>> 8 % 256,
   packStick rx ry lx ly throttle >>> 16 % 256,
   packStick rx ry lx ly throttle >>> 24 % 256,
   packStick rx ry lx ly throttle >>> 32 % 256,
   packStick rx ry lx ly throttle >>> 40 % 256]

/-- Little-endian byte-sequence value: the number a byte list denotes when
byte 0 is least significant.  Used to state the layout claim. -/
def listToNatLE : List ℕ → ℕ
  | [] => 0
  | b :: bs => b + 256 * listToNatLE bs

/-! ## Sequence-number discipline (`sendStickUpdate`, `TakeOff`, `Land`) -/

/-- One kind of to-device command transmission on an open connection. -/
inductive CmdOp where
  | takeOff
  | land
  | stickUpdate
deriving Repr, DecidableEq

/-- Embedding of the sequence-number effect of one transmission.
`TakeOff` (lines 372-373) and `Land` (lines 394-395) perform
`tello.ctrlSeq++; pkt.sequence = tello.ctrlSeq` on the `uint16` counter;
`sendStickUpdate` (line 325) sets `pkt.sequence = 0` and leaves the
counter untouched.  Result: (new counter, transmitted sequence field). -/
def stepSeq (s : ℕ) : CmdOp → ℕ × ℕ
  | CmdOp.takeOff => ((s + 1) % 65536, (s + 1) % 65536)
  | CmdOp.land => ((s + 1) % 65536, (s + 1) % 65536)
  | CmdOp.stickUpdate => (s, 0)

/-- Trace of an interleaving of command transmissions: for each operation,
the operation together with the sequence field of the packet it sent. -/
def runTrace (s : ℕ) : List CmdOp → List (CmdOp × ℕ)
  | [] => []
  | op :: ops => (op, (stepSeq s op).2) :: runTrace (stepSeq s op).1 ops

/-! ## Connection state machine (`ControlConnect`, `sendConnectRequest`) -/

/-- Errors `ControlConnect` can return (lines 66, 70, 76, 80, 86, 111). -/
inductive ConnectErr where
  | alreadyConnected
  | connectInProgress
  | resolveDroneError
  | resolveLocalError
  | dialError
  | handshakeTimeout
deriving Repr, DecidableEq

/-- Externally visible side effects `ControlConnect` performs, in order. -/
inductive NetEffect where
  | resolvedDroneAddr
  | resolvedLocalAddr
  | dialedSocket
  | startedListener
  | sentConnReq
  | startedKeepAlive
  | startedStickListener
deriving Repr, DecidableEq

/-- Environment oracle for one `ControlConnect` call: outcomes of the two
address resolutions, of `net.DialUDP`, and whether the response listener
recognized a connection acknowledgment before the final poll-loop check
(the loop of lines 99-107 polls `ctrlConnected` up to 10 times at 333 ms). -/
structure NetEnv where
  resolveDroneOk : Bool := true
  resolveLocalOk : Bool := true
  dialOk : Bool := true
  ackRecognized : Bool := false
deriving Repr, DecidableEq

/-- Result of a `ControlConnect` call: the state left behind, the returned
error (if any), whether a (non-nil) stick channel was returned, and the
trace of network side effects performed. -/
structure ConnectResult where
  newState : TelloState
  err : Option ConnectErr
  stickChanReturned : Bool
  effects : List NetEffect
deriving Repr, DecidableEq

/-- Byte sequence of the ASCII string of the connect request, `conn_req:lh`. -/
def connReqBytes : List ℕ := [99, 111, 110, 110, 95, 114, 101, 113, 58, 108, 104]

/-- Embedding of `sendConnectRequest` (lines 276-285): builds the 11-byte
request with the requested video port in little-endian order at bytes 9-10,
sets `ctrlConnecting`, and writes the datagram (returned second). -/
def sendConnectRequest (st : TelloState) (videoPort : ℕ) : TelloState × List ℕ :=
  ({ st with ctrlConnecting := true },
    (connReqBytes.set 9 (videoPort % 256)).set 10 (videoPort >>> 8 % 256))

/-- Default video port requested by `ControlConnect` (line 96 and line 38). -/
def defaultTelloVideoPort : ℕ := 6038

/-- Embedding of `ControlConnect` (lines 61-123).  Control flow follows the
source: the connected/connecting guards return before anything else
happens; then the two resolutions, the dial, starting the listener,
`sendConnectRequest`, the bounded poll for `ctrlConnected` (collapsed into
the `ackRecognized` oracle), and either the timeout return or the start of
the keepalive and stick-listener tasks and return of the stick channel. -/
def controlConnect (st : TelloState) (env : NetEnv) : ConnectResult :=
  if st.ctrlConnected then
    ⟨st, some ConnectErr.alreadyConnected, false, []⟩
  else if st.ctrlConnecting then
    ⟨st, some ConnectErr.connectInProgress, false, []⟩
  else if !env.resolveDroneOk then
    ⟨st, some ConnectErr.resolveDroneError, false, [NetEffect.resolvedDroneAddr]⟩
  else if !env.resolveLocalOk then
    ⟨st, some ConnectErr.resolveLocalError, false,
      [NetEffect.resolvedDroneAddr, NetEffect.resolvedLocalAddr]⟩
  else if !env.dialOk then
    ⟨st, some ConnectErr.dialError, false,
      [NetEffect.resolvedDroneAddr, NetEffect.resolvedLocalAddr, NetEffect.dialedSocket]⟩
  else
    let st1 : TelloState := { st with ctrlConnOpen := true, ctrlStopChanMade := true }
    let st2 := (sendConnectRequest st1 defaultTelloVideoPort).1
    let st3 := if env.ackRecognized then
        { st2 with ctrlConnecting := false, ctrlConnected := true } else st2
    if st3.ctrlConnected then
      ⟨{ st3 with stickChanMade := true }, none, true,
        [NetEffect.resolvedDroneAddr, NetEffect.resolvedLocalAddr, NetEffect.dialedSocket,
         NetEffect.startedListener, NetEffect.sentConnReq, NetEffect.startedKeepAlive,
         NetEffect.startedStickListener]⟩
    else
      ⟨st3, some ConnectErr.handshakeTimeout, false,
        [NetEffect.resolvedDroneAddr, NetEffect.resolvedLocalAddr, NetEffect.dialedSocket,
         NetEffect.startedListener, NetEffect.sentConnReq]⟩

/-! ## Read-loop handshake recognition (`controlResponseListener` lines 216-231) -/

/-- Byte sequence of the acknowledgment marker text, `conn_ack:`. -/
def connAckMarkerBytes : List ℕ := [99, 111, 110, 110, 95, 97, 99, 107, 58]

/-- Embedding of Go `bytes.ContainsAny(b, chars)`: true iff ANY of the
(here all-ASCII) characters of `chars` occurs anywhere in `b`.  This is a
character-set test, not a substring test. -/
def containsAnyByte (b : List ℕ) (chars : List ℕ) : Bool :=
  b.any (fun x => chars.contains x)

/-- Outcome of one read-loop iteration on the handshake path: the two phase
flags afterwards, whether the `ctrlConnecting && n == 11` branch was taken,
and whether the datagram was logged as an unexpected response. -/
structure HandshakeStep where
  ctrlConnecting : Bool
  ctrlConnected : Bool
  branchTaken : Bool
  loggedUnexpected : Bool
deriving Repr, DecidableEq

/-- Embedding of the handshake special case of `controlResponseListener`
(lines 219-231): while `ctrlConnecting` with an 11-byte read, a buffer
satisfying `bytes.ContainsAny(buff, "conn_ack:")` flips the phase to
connected; otherwise the datagram is logged as unexpected and the flags
are unchanged.  In both cases the iteration ends (`continue`) with no
retransmission of the request. -/
def listenerHandshake (connecting connected : Bool) (buff : List ℕ) (n : ℕ) :
    HandshakeStep :=
  if connecting && n == 11 then
    if containsAnyByte buff connAckMarkerBytes then
      ⟨false, true, true, false⟩
    else
      ⟨connecting, connected, true, true⟩
  else
    ⟨connecting, connected, false, false⟩

/-- Read buffer as seen by `bytes.ContainsAny`: the listener reads into a
fresh 4096-byte buffer (line 213), so after a read of a datagram the buffer
is the datagram followed by zero bytes. -/
def readBuff (datagram : List ℕ) : List ℕ :=
  datagram ++ List.replicate (4096 - datagram.length) 0

/-- Modelled from the spec: `startsWithSeq pat b` holds when `b` begins with
the byte sequence `pat`.  Helper for the spec-side substring test. -/
def startsWithSeq : List ℕ → List ℕ → Bool
  | [], _ => true
  | _ :: _, [] => false
  | a :: as, b :: bs => a == b && startsWithSeq as bs

/-- Modelled from the spec: the spec-side reading of "its content contains
the acknowledgment marker text" — the marker occurs contiguously in the
bytes.  Compared against the source's `bytes.ContainsAny` behaviour. -/
def containsSeq (pat : List ℕ) : List ℕ → Bool
  | [] => startsWithSeq pat []
  | b :: bs => startsWithSeq pat (b :: bs) || containsSeq pat bs

/-! ## Telemetry dispatch (`controlResponseListener` lines 246-265) -/

/-- Embedding of the message dispatch switch: flight-status and log-header
packets only log, light-strength writes `LightStrength` from payload byte
0, wifi-strength writes `WifiStrength` and `WifiInterference` from payload
bytes 0 and 1, and unknown IDs only log. -/
def dispatchPacket (pkt : packet) (fd : FlightData) : FlightData :=
  if pkt.messageID = msgFlightStatus then fd
  else if pkt.messageID = msgLightStrength then
    { fd with LightStrength := pkt.payload.getD 0 0 }
  else if pkt.messageID = msgLogHeader then fd
  else if pkt.messageID = msgWifiStrength then
    { fd with WifiStrength := pkt.payload.getD 0 0,
              WifiInterference := pkt.payload.getD 1 0 }
  else fd

/-! ## Hover (lines 407-415) and StreamFlightData (lines 182-210) -/

/-- Embedding of `Hover`: zeroes the five axis/throttle fields under the
control mutex and sends nothing; second component is the list of datagrams
written to the socket (none). -/
def hover (st : TelloState) : TelloState × List (List ℕ) :=
  ({ st with ctrlLx := 0, ctrlLy := 0, ctrlRx := 0, ctrlRy := 0, ctrlThrottle := 0 }, [])

/-- Possible outcomes of a `StreamFlightData` call. `fatalAbort` models
`log.Fatal`, which prints and calls `os.Exit(1)`: the process terminates
and the call never returns to the caller. -/
inductive StreamOutcome where
  | errAlreadyStreaming
  | fatalAbort
  | streamStarted
deriving Repr, DecidableEq

/-- Embedding of `StreamFlightData` (lines 182-210): an active stream gives
the already-streaming error; otherwise `asAvailable = true` reaches
`log.Fatal` (line 191) before any use of `periodMs`; otherwise the periodic
streamer is started. -/
def streamFlightData (fdStreaming : Bool) (asAvailable : Bool) (periodMs : ℕ) :
    StreamOutcome :=
  if fdStreaming then StreamOutcome.errAlreadyStreaming
  else if asAvailable then StreamOutcome.fatalAbort
  else StreamOutcome.streamStarted

/-! ## Helper lemmas -/

/-- Bounds of the axis mapping on the contractual range. -/
theorem jsFloatToTello_bounds {fv : ℚ} (h1 : -1 ≤ fv) (h2 : fv ≤ 1) :
    364 ≤ jsFloatToTello fv ∧ jsFloatToTello fv ≤ 1684 := by
  unfold jsFloatToTello
  have hlo : (364 : ℚ) ≤ 660 * fv + 1024 := by nlinarith
  have hhi : 660 * fv + 1024 ≤ (1684 : ℚ) := by nlinarith
  have h364 : (364 : ℤ) ≤ ⌊660 * fv + 1024⌋ := by
    refine Int.le_floor.mpr ?_
    exact_mod_cast hlo
  have h1684 : ⌊660 * fv + 1024⌋ ≤ (1684 : ℤ) := by
    have := Int.floor_le_floor hhi
    simpa using this
  omega

/-- Disjoint or is addition: when `a` fits below bit `n`, oring in a value
shifted up by `n` is the same as adding it. -/
theorem lor_shiftLeft_eq_add {a : ℕ} (b n : ℕ) (h : a < 2 ^ n) :
    a ||| (b <<< n) = a + b * 2 ^ n := by
  rw [Nat.shiftLeft_eq, Nat.lor_comm, mul_comm b (2 ^ n), Nat.add_comm]
  exact (Nat.mul_add_lt_is_or h b).symm

/-- The packed stick word is the weighted sum of its five 11-bit fields. -/
theorem packStick_eq_sum {rx ry lx ly th : ℚ}
    (hrx1 : -1 ≤ rx) (hrx2 : rx ≤ 1) (hry1 : -1 ≤ ry) (hry2 : ry ≤ 1)
    (hlx1 : -1 ≤ lx) (hlx2 : lx ≤ 1) (hly1 : -1 ≤ ly) (hly2 : ly ≤ 1)
    (hth1 : -1 ≤ th) (hth2 : th ≤ 1) :
    packStick rx ry lx ly th =
      jsFloatToTello rx + jsFloatToTello ry * 2 ^ 11 + jsFloatToTello ly * 2 ^ 22 +
        jsFloatToTello lx * 2 ^ 33 +
        (if th > 1 / 10 then 0x7ff else jsFloatToTello th) * 2 ^ 44 := by
  obtain ⟨brx1, brx2⟩ := jsFloatToTello_bounds hrx1 hrx2
  obtain ⟨bry1, bry2⟩ := jsFloatToTello_bounds hry1 hry2
  obtain ⟨blx1, blx2⟩ := jsFloatToTello_bounds hlx1 hlx2
  obtain ⟨bly1, bly2⟩ := jsFloatToTello_bounds hly1 hly2
  obtain ⟨bth1, bth2⟩ := jsFloatToTello_bounds hth1 hth2
  unfold packStick
  rw [lor_shiftLeft_eq_add (jsFloatToTello ry) 11 (by norm_num; omega)]
  rw [lor_shiftLeft_eq_add (jsFloatToTello ly) 22 (by norm_num; omega)]
  rw [lor_shiftLeft_eq_add (jsFloatToTello lx) 33 (by norm_num; omega)]
  by_cases hcond : th > 1 / 10
  · rw [if_pos hcond, if_pos hcond,
      lor_shiftLeft_eq_add 0x7ff 44 (by norm_num; omega)]
  · rw [if_neg hcond, if_neg hcond,
      lor_shiftLeft_eq_add (jsFloatToTello th) 44 (by norm_num; omega)]

/-- Value of the zero point of the axis mapping. -/
theorem jsFloatToTello_zero : jsFloatToTello 0 = 1024 := by
  unfold jsFloatToTello
  norm_num
  rfl

/-! ## C4 — throttle saturation -/

/-- C4: for every in-range axis/throttle state, the throttle field (bits
44-54 of the packed stick word) is forced to `0x7FF` when the throttle
exceeds `0.1`, and otherwise carries the value of the same mapping formula
used for the other four axes. -/
theorem throttle_saturation (rx ry lx ly th : ℚ)
    (hrx1 : -1 ≤ rx) (hrx2 : rx ≤ 1) (hry1 : -1 ≤ ry) (hry2 : ry ≤ 1)
    (hlx1 : -1 ≤ lx) (hlx2 : lx ≤ 1) (hly1 : -1 ≤ ly) (hly2 : ly ≤ 1)
    (hth1 : -1 ≤ th) (hth2 : th ≤ 1) :
    (th > 1 / 10 → packStick rx ry lx ly th >>> 44 &&& 0x7ff = 0x7ff) ∧
    (th ≤ 1 / 10 → packStick rx ry lx ly th >>> 44 &&& 0x7ff = jsFloatToTello th) := by
  have hsum := packStick_eq_sum hrx1 hrx2 hry1 hry2 hlx1 hlx2 hly1 hly2 hth1 hth2
  obtain ⟨brx1, brx2⟩ := jsFloatToTello_bounds hrx1 hrx2
  obtain ⟨bry1, bry2⟩ := jsFloatToTello_bounds hry1 hry2
  obtain ⟨blx1, blx2⟩ := jsFloatToTello_bounds hlx1 hlx2
  obtain ⟨bly1, bly2⟩ := jsFloatToTello_bounds hly1 hly2
  obtain ⟨bth1, bth2⟩ := jsFloatToTello_bounds hth1 hth2
  have h7ff : (0x7ff : ℕ) = 2 ^ 11 - 1 := by norm_num
  have p11 : (2 : ℕ) ^ 11 = 2048 := by norm_num
  have p22 : (2 : ℕ) ^ 22 = 4194304 := by norm_num
  have p33 : (2 : ℕ) ^ 33 = 8589934592 := by norm_num
  have p44 : (2 : ℕ) ^ 44 = 17592186044416 := by norm_num
  constructor
  · intro hgt
    rw [hsum, if_pos hgt, Nat.shiftRight_eq_div_pow, h7ff,
      Nat.and_pow_two_sub_one_eq_mod, p11, p22, p33, p44]
    omega
  · intro hle
    rw [hsum, if_neg (not_lt.mpr hle), Nat.shiftRight_eq_div_pow, h7ff,
      Nat.and_pow_two_sub_one_eq_mod, p11, p22, p33, p44]
    omega

/-- C4 witness: saturation at throttle 1, normal mapping at throttle 0. -/
theorem throttle_saturation_witness :
    packStick 0 0 0 0 1 >>> 44 &&& 0x7ff = 0x7ff ∧
    packStick 0 0 0 0 0 >>> 44 &&& 0x7ff = jsFloatToTello 0 :=
  ⟨(throttle_saturation 0 0 0 0 1 (by norm_num) (by norm_num) (by norm_num) (by norm_num)
      (by norm_num) (by norm_num) (by norm_num) (by norm_num) (by norm_num) (by norm_num)).1
      (by norm_num),
   (throttle_saturation 0 0 0 0 0 (by norm_num) (by norm_num) (by norm_num) (by norm_num)
      (by norm_num) (by norm_num) (by norm_num) (by norm_num) (by norm_num) (by norm_num)).2
      (by norm_num)⟩

/-! ## C5 — the axis mapping truncates, it does not round -/

/-- C5 counterexample: at axis value `3/2048` — exactly representable in
float64, with every intermediate float64 operation of the source exact —
the encoder produces `1024` (truncation of `1024.966796875`) while the
claimed formula `round(660*value + 1024)` gives `1025`. -/
theorem jsFloatToTello_round_counterexample :
    jsFloatToTello (3 / 2048) = 1024 ∧
    round ((660 : ℚ) * (3 / 2048) + 1024) = 1025 := by
  constructor
  · unfold jsFloatToTello
    have h : (660 : ℚ) * (3 / 2048) + 1024 = 524783 / 512 := by norm_num
    rw [h]
    have hf : ⌊(524783 : ℚ) / 512⌋ = 1024 := by
      rw [Int.floor_eq_iff]
      constructor <;> norm_num
    rw [hf]
    rfl
  · rw [round_eq]
    have h : (660 : ℚ) * (3 / 2048) + 1024 + 1 / 2 = 525039 / 512 := by norm_num
    rw [h, Int.floor_eq_iff]
    constructor <;> norm_num

/-- C5 amended: on the contractual range the encoder maps an axis value to
the truncation `⌊660*value + 1024⌋` (in `[364, 1684]`), which agrees with
the claimed `round(660*value + 1024)` exactly when the fractional part is
below one half; the zero point maps to `1024`, and the all-zero state
always packs to the one fixed word (determinism). -/
theorem jsFloatToTello_truncation (fv : ℚ) (h1 : -1 ≤ fv) (h2 : fv ≤ 1) :
    (jsFloatToTello fv : ℤ) = ⌊660 * fv + 1024⌋ ∧
    364 ≤ jsFloatToTello fv ∧ jsFloatToTello fv ≤ 1684 ∧
    (Int.fract (660 * fv + 1024) < 1 / 2 →
      (jsFloatToTello fv : ℤ) = round (660 * fv + 1024)) ∧
    jsFloatToTello 0 = 1024 ∧
    packStick 0 0 0 0 0 =
      1024 + 1024 * 2 ^ 11 + 1024 * 2 ^ 22 + 1024 * 2 ^ 33 + 1024 * 2 ^ 44 := by
  obtain ⟨b1, b2⟩ := jsFloatToTello_bounds h1 h2
  have hge : (364 : ℤ) ≤ ⌊660 * fv + 1024⌋ := by
    refine Int.le_floor.mpr ?_
    push_cast
    nlinarith
  have hcast : (jsFloatToTello fv : ℤ) = ⌊660 * fv + 1024⌋ := by
    unfold jsFloatToTello
    omega
  refine ⟨hcast, b1, b2, ?_, jsFloatToTello_zero, ?_⟩
  · intro hfr
    have hfr' : 660 * fv + 1024 - ⌊660 * fv + 1024⌋ < 1 / 2 := by
      unfold Int.fract at hfr
      exact hfr
    have hfl := Int.floor_le (660 * fv + 1024)
    rw [hcast, round_eq]
    symm
    rw [Int.floor_eq_iff]
    constructor
    · linarith
    · linarith
  · rw [packStick_eq_sum (by norm_num) (by norm_num) (by norm_num) (by norm_num)
      (by norm_num) (by norm_num) (by norm_num) (by norm_num) (by norm_num) (by norm_num)]
    rw [if_neg (by norm_num), jsFloatToTello_zero]

/-- C5 amended witness: at axis value `1/2` the fractional part is zero, so
truncation and rounding agree; the zero point is `1024`. -/
theorem jsFloatToTello_truncation_witness :
    (jsFloatToTello (1 / 2) : ℤ) = round ((660 : ℚ) * (1 / 2) + 1024) ∧
    jsFloatToTello 0 = 1024 := by
  refine ⟨(jsFloatToTello_truncation (1 / 2) (by norm_num) (by norm_num)).2.2.2.1 ?_,
    (jsFloatToTello_truncation 0 (by norm_num) (by norm_num)).2.2.2.2.1⟩
  have h : (660 : ℚ) * (1 / 2) + 1024 = 1354 := by norm_num
  rw [h]
  unfold Int.fract
  norm_num

/-! ## C6 — field placement and little-endian payload bytes -/

/-- C6: for every in-range axis/throttle state the packed word carries the
four 11-bit axis fields least-significant-first — Rx at bit 0, Ry at bit
11, Ly at bit 22, Lx at bit 33 — and payload bytes 0-5 hold the low 48
bits of the packed word in little-endian byte order. -/
theorem stick_packing_layout (rx ry lx ly th : ℚ)
    (hrx1 : -1 ≤ rx) (hrx2 : rx ≤ 1) (hry1 : -1 ≤ ry) (hry2 : ry ≤ 1)
    (hlx1 : -1 ≤ lx) (hlx2 : lx ≤ 1) (hly1 : -1 ≤ ly) (hly2 : ly ≤ 1)
    (hth1 : -1 ≤ th) (hth2 : th ≤ 1) :
    packStick rx ry lx ly th &&& 0x7ff = jsFloatToTello rx ∧
    packStick rx ry lx ly th >>> 11 &&& 0x7ff = jsFloatToTello ry ∧
    packStick rx ry lx ly th >>> 22 &&& 0x7ff = jsFloatToTello ly ∧
    packStick rx ry lx ly th >>> 33 &&& 0x7ff = jsFloatToTello lx ∧
    listToNatLE (stickPayloadBytes rx ry lx ly th) = packStick rx ry lx ly th % 2 ^ 48 := by
  obtain ⟨brx1, brx2⟩ := jsFloatToTello_bounds hrx1 hrx2
  obtain ⟨bry1, bry2⟩ := jsFloatToTello_bounds hry1 hry2
  obtain ⟨blx1, blx2⟩ := jsFloatToTello_bounds hlx1 hlx2
  obtain ⟨bly1, bly2⟩ := jsFloatToTello_bounds hly1 hly2
  obtain ⟨bth1, bth2⟩ := jsFloatToTello_bounds hth1 hth2
  obtain ⟨T, hsum, hTb⟩ : ∃ T, packStick rx ry lx ly th =
      jsFloatToTello rx + jsFloatToTello ry * 2 ^ 11 + jsFloatToTello ly * 2 ^ 22 +
        jsFloatToTello lx * 2 ^ 33 + T * 2 ^ 44 ∧ T ≤ 2047 := by
    refine ⟨_, packStick_eq_sum hrx1 hrx2 hry1 hry2 hlx1 hlx2 hly1 hly2 hth1 hth2, ?_⟩
    split
    · norm_num
    · omega
  have h7ff : (0x7ff : ℕ) = 2 ^ 11 - 1 := by norm_num
  simp only [stickPayloadBytes, listToNatLE, Nat.shiftRight_eq_div_pow, h7ff,
    Nat.and_pow_two_sub_one_eq_mod]
  rw [hsum]
  have p8 : (2 : ℕ) ^ 8 = 256 := by norm_num
  have p11 : (2 : ℕ) ^ 11 = 2048 := by norm_num
  have p16 : (2 : ℕ) ^ 16 = 65536 := by norm_num
  have p22 : (2 : ℕ) ^ 22 = 4194304 := by norm_num
  have p24 : (2 : ℕ) ^ 24 = 16777216 := by norm_num
  have p32 : (2 : ℕ) ^ 32 = 4294967296 := by norm_num
  have p33 : (2 : ℕ) ^ 33 = 8589934592 := by norm_num
  have p40 : (2 : ℕ) ^ 40 = 1099511627776 := by norm_num
  have p44 : (2 : ℕ) ^ 44 = 17592186044416 := by norm_num
  have p48 : (2 : ℕ) ^ 48 = 281474976710656 := by norm_num
  rw [p8, p11, p16, p22, p24, p32, p33, p40, p44, p48]
  omega

/-- C6 witness: the layout at the concrete state with all axes zero and
throttle one half. -/
theorem stick_packing_layout_witness :
    packStick 0 0 0 0 (1 / 2) &&& 0x7ff = jsFloatToTello 0 ∧
    packStick 0 0 0 0 (1 / 2) >>> 11 &&& 0x7ff = jsFloatToTello 0 ∧
    packStick 0 0 0 0 (1 / 2) >>> 22 &&& 0x7ff = jsFloatToTello 0 ∧
    packStick 0 0 0 0 (1 / 2) >>> 33 &&& 0x7ff = jsFloatToTello 0 ∧
    listToNatLE (stickPayloadBytes 0 0 0 0 (1 / 2)) = packStick 0 0 0 0 (1 / 2) % 2 ^ 48 :=
  stick_packing_layout 0 0 0 0 (1 / 2) (by norm_num) (by norm_num) (by norm_num) (by norm_num)
    (by norm_num) (by norm_num) (by norm_num) (by norm_num) (by norm_num) (by norm_num)

/-! ## C1 — handshake acknowledgment recognition -/

/-- Any over an appended list splits into a disjunction. -/
theorem containsAnyByte_append (d e cs : List ℕ) :
    containsAnyByte (d ++ e) cs = (containsAnyByte d cs || containsAnyByte e cs) := by
  simp [containsAnyByte]

/-- Zero padding never contributes a marker character. -/
theorem containsAnyByte_replicate_zero (k : ℕ) :
    containsAnyByte (List.replicate k 0) connAckMarkerBytes = false := by
  rw [containsAnyByte, List.any_eq_false]
  intro x hx
  rw [List.eq_of_mem_replicate hx]
  decide

/-- An 11-byte datagram — one colon then ten letters a — that contains
characters of the marker but not the marker text itself. -/
def failDatagram : List ℕ := 58 :: List.replicate 10 97

/-- C1 (divergence witness): in the handshaking phase, the 11-byte datagram
`failDatagram` does NOT contain the acknowledgment marker text `conn_ack:`,
yet the listener treats it as a valid acknowledgment and transitions the
phase to connected, because `bytes.ContainsAny` tests for any single
character of the marker rather than for the marker as a substring. -/
theorem handshake_marker_bug :
    listenerHandshake true false (readBuff failDatagram) 11 =
      ⟨false, true, true, false⟩ ∧
    containsSeq connAckMarkerBytes failDatagram = false := by
  constructor
  · have hbuff : containsAnyByte (readBuff failDatagram) connAckMarkerBytes = true := by
      rw [readBuff, containsAnyByte_append, containsAnyByte_replicate_zero, Bool.or_false]
      decide
    simp [listenerHandshake, hbuff]
  · decide

/-! ## C2 and C3 — ControlConnect -/

/-- Environment with working resolution and dial but no acknowledgment. -/
def envOkNoAck : NetEnv :=
  { resolveDroneOk := true, resolveLocalOk := true, dialOk := true, ackRecognized := false }

/-- C2 counterexample: from a fresh state with a working network but no
acknowledgment within the polling window, `ControlConnect` does return the
handshake-timeout error and a nil stick channel, but the link is NOT left
cleaned-up: it stays in the handshaking phase (`ctrlConnecting` true) with
the socket still open. -/
theorem controlConnect_timeout_counterexample :
    (controlConnect {} envOkNoAck).err = some ConnectErr.handshakeTimeout ∧
    (controlConnect {} envOkNoAck).stickChanReturned = false ∧
    (controlConnect {} envOkNoAck).newState.ctrlConnecting = true ∧
    (controlConnect {} envOkNoAck).newState.ctrlConnOpen = true :=
  ⟨rfl, rfl, rfl, rfl⟩

/-- C2 amended: when no acknowledgment is recognized within the bounded
polling window, `ControlConnect` returns the handshake-timeout error and a
nil stick channel, and the link remains in the handshaking phase with the
socket and listener still allocated (the caller must disconnect). -/
theorem controlConnect_timeout_amended (st : TelloState) (env : NetEnv)
    (h1 : st.ctrlConnected = false) (h2 : st.ctrlConnecting = false)
    (h3 : env.resolveDroneOk = true) (h4 : env.resolveLocalOk = true)
    (h5 : env.dialOk = true) (h6 : env.ackRecognized = false) :
    controlConnect st env =
      ⟨{ st with ctrlConnOpen := true, ctrlStopChanMade := true, ctrlConnecting := true },
        some ConnectErr.handshakeTimeout, false,
        [NetEffect.resolvedDroneAddr, NetEffect.resolvedLocalAddr, NetEffect.dialedSocket,
          NetEffect.startedListener, NetEffect.sentConnReq]⟩ := by
  simp [controlConnect, sendConnectRequest, h1, h2, h3, h4, h5, h6]

/-- C2 amended witness: the amended behaviour at the fresh state. -/
theorem controlConnect_timeout_amended_witness :
    controlConnect {} envOkNoAck =
      ⟨{ ctrlConnOpen := true, ctrlStopChanMade := true, ctrlConnecting := true },
        some ConnectErr.handshakeTimeout, false,
        [NetEffect.resolvedDroneAddr, NetEffect.resolvedLocalAddr, NetEffect.dialedSocket,
          NetEffect.startedListener, NetEffect.sentConnReq]⟩ :=
  controlConnect_timeout_amended {} envOkNoAck rfl rfl rfl rfl rfl rfl

/-- C3: for every state and environment, a call while connected returns the
already-connected error and a call while handshaking returns the
connection-in-progress error; in both cases the state is returned
unchanged, no stick channel is produced, and the effect trace is empty —
no address resolution and no socket. -/
theorem controlConnect_guards (st : TelloState) (env : NetEnv) :
    (st.ctrlConnected = true →
      controlConnect st env = ⟨st, some ConnectErr.alreadyConnected, false, []⟩) ∧
    (st.ctrlConnected = false → st.ctrlConnecting = true →
      controlConnect st env = ⟨st, some ConnectErr.connectInProgress, false, []⟩) := by
  constructor
  · intro h
    simp [controlConnect, h]
  · intro h1 h2
    simp [controlConnect, h1, h2]

/-- C3 witness: concrete applications of both guards. -/
theorem controlConnect_guards_witness :
    controlConnect { ctrlConnected := true } envOkNoAck =
      ⟨{ ctrlConnected := true }, some ConnectErr.alreadyConnected, false, []⟩ ∧
    controlConnect { ctrlConnecting := true } envOkNoAck =
      ⟨{ ctrlConnecting := true }, some ConnectErr.connectInProgress, false, []⟩ :=
  ⟨(controlConnect_guards { ctrlConnected := true } envOkNoAck).1 rfl,
   (controlConnect_guards { ctrlConnecting := true } envOkNoAck).2 rfl rfl⟩

/-! ## C7 — sequence numbers -/

/-- Number of operations in a list that send a sequence-consuming packet
(take-off and land; stick updates do not touch the counter). -/
def nonStickCount : List CmdOp → ℕ
  | [] => 0
  | CmdOp.stickUpdate :: ops => nonStickCount ops
  | CmdOp.takeOff :: ops => nonStickCount ops + 1
  | CmdOp.land :: ops => nonStickCount ops + 1

/-- Sequence fields of the take-off and land packets of a trace, in order. -/
def nonStickSeqs : List (CmdOp × ℕ) → List ℕ
  | [] => []
  | (CmdOp.stickUpdate, _) :: tr => nonStickSeqs tr
  | (CmdOp.takeOff, q) :: tr => q :: nonStickSeqs tr
  | (CmdOp.land, q) :: tr => q :: nonStickSeqs tr

/-- C7 counterexample: a take-off followed by a keepalive stick update
transmits sequence fields 1 then 0 — the stick-update packet does not
carry a sequence number greater than the previous packet's, because
`sendStickUpdate` always sends sequence 0. -/
theorem sequence_monotone_counterexample :
    ¬ List.Chain' (· < ·)
      ((runTrace 0 [CmdOp.takeOff, CmdOp.stickUpdate]).map Prod.snd) := by
  intro hch
  have hlist : (runTrace 0 [CmdOp.takeOff, CmdOp.stickUpdate]).map Prod.snd = [1, 0] := rfl
  rw [hlist, List.chain'_cons] at hch
  omega

/-- Stick-update packets always carry sequence field 0. -/
theorem runTrace_stick_zero (s : ℕ) (ops : List CmdOp) :
    ∀ pr ∈ runTrace s ops, pr.1 = CmdOp.stickUpdate → pr.2 = 0 := by
  induction ops generalizing s with
  | nil =>
    intro pr h
    simp [runTrace] at h
  | cons op ops ih =>
    intro pr h hstick
    rw [runTrace, List.mem_cons] at h
    rcases h with h1 | h2
    · cases op <;> simp_all [stepSeq]
    · exact ih (stepSeq s op).1 pr h2 hstick

/-- Every take-off/land sequence field emitted from counter state `s` is
strictly above `s`, as long as the counter never wraps. -/
theorem runTrace_nonstick_gt (s : ℕ) (ops : List CmdOp)
    (h : s + nonStickCount ops ≤ 65535) :
    ∀ q ∈ nonStickSeqs (runTrace s ops), s < q := by
  induction ops generalizing s with
  | nil =>
    intro q hq
    simp [runTrace, nonStickSeqs] at hq
  | cons op ops ih =>
    intro q hq
    cases op with
    | stickUpdate =>
      rw [runTrace] at hq
      simp only [stepSeq, nonStickSeqs] at hq
      exact ih s (by simpa [nonStickCount] using h) q hq
    | takeOff =>
      have hmod : (s + 1) % 65536 = s + 1 := by
        have : nonStickCount (CmdOp.takeOff :: ops) = nonStickCount ops + 1 := rfl
        omega
      rw [runTrace] at hq
      simp only [stepSeq, nonStickSeqs, hmod, List.mem_cons] at hq
      rcases hq with h1 | h2
      · omega
      · have : nonStickCount (CmdOp.takeOff :: ops) = nonStickCount ops + 1 := rfl
        have := ih (s + 1) (by omega) q h2
        omega
    | land =>
      have hmod : (s + 1) % 65536 = s + 1 := by
        have : nonStickCount (CmdOp.land :: ops) = nonStickCount ops + 1 := rfl
        omega
      rw [runTrace] at hq
      simp only [stepSeq, nonStickSeqs, hmod, List.mem_cons] at hq
      rcases hq with h1 | h2
      · omega
      · have : nonStickCount (CmdOp.land :: ops) = nonStickCount ops + 1 := rfl
        have := ih (s + 1) (by omega) q h2
        omega

/-- C7 amended: on one connection, keepalive stick-update packets always
carry sequence 0, while the take-off/land packets carry the incremented
16-bit counter and are strictly increasing among themselves as long as the
counter does not wrap around. -/
theorem sequence_amended (s : ℕ) (ops : List CmdOp)
    (h : s + nonStickCount ops ≤ 65535) :
    (∀ pr ∈ runTrace s ops, pr.1 = CmdOp.stickUpdate → pr.2 = 0) ∧
    List.Chain' (· < ·) (nonStickSeqs (runTrace s ops)) := by
  refine ⟨runTrace_stick_zero s ops, ?_⟩
  induction ops generalizing s with
  | nil => simp [runTrace, nonStickSeqs]
  | cons op ops ih =>
    cases op with
    | stickUpdate =>
      rw [runTrace]
      simp only [stepSeq, nonStickSeqs]
      exact ih s (by simpa [nonStickCount] using h)
    | takeOff =>
      have hcount : nonStickCount (CmdOp.takeOff :: ops) = nonStickCount ops + 1 := rfl
      have hmod : (s + 1) % 65536 = s + 1 := by omega
      rw [runTrace]
      simp only [stepSeq, nonStickSeqs, hmod]
      refine List.chain'_cons'.mpr ⟨?_, ih (s + 1) (by omega)⟩
      intro y hy
      exact runTrace_nonstick_gt (s + 1) ops (by omega) y (List.mem_of_mem_head? hy)
    | land =>
      have hcount : nonStickCount (CmdOp.land :: ops) = nonStickCount ops + 1 := rfl
      have hmod : (s + 1) % 65536 = s + 1 := by omega
      rw [runTrace]
      simp only [stepSeq, nonStickSeqs, hmod]
      refine List.chain'_cons'.mpr ⟨?_, ih (s + 1) (by omega)⟩
      intro y hy
      exact runTrace_nonstick_gt (s + 1) ops (by omega) y (List.mem_of_mem_head? hy)

/-- C7 amended witness: the interleaving take-off, stick update, land from
a fresh counter. -/
theorem sequence_amended_witness :
    (∀ pr ∈ runTrace 0 [CmdOp.takeOff, CmdOp.stickUpdate, CmdOp.land],
      pr.1 = CmdOp.stickUpdate → pr.2 = 0) ∧
    List.Chain' (· < ·)
      (nonStickSeqs (runTrace 0 [CmdOp.takeOff, CmdOp.stickUpdate, CmdOp.land])) :=
  sequence_amended 0 [CmdOp.takeOff, CmdOp.stickUpdate, CmdOp.land] (by decide)

/-! ## C8 — telemetry dispatch isolation -/

/-- C8: dispatch of a decoded inbound packet touches only the telemetry
fields of its message ID: a wifi-strength packet writes the two wifi
fields from payload bytes 0 and 1 and leaves the light field alone, a
light-strength packet writes the light field from payload byte 0 and
leaves the wifi fields alone, and flight-status, log-header and unknown
message IDs leave the whole snapshot unchanged. -/
theorem dispatch_isolation (pkt : packet) (fd : FlightData) :
    (pkt.messageID = msgWifiStrength →
      dispatchPacket pkt fd =
        { fd with WifiStrength := pkt.payload.getD 0 0,
                  WifiInterference := pkt.payload.getD 1 0 }) ∧
    (pkt.messageID = msgWifiStrength →
      (dispatchPacket pkt fd).LightStrength = fd.LightStrength) ∧
    (pkt.messageID = msgLightStrength →
      dispatchPacket pkt fd = { fd with LightStrength := pkt.payload.getD 0 0 }) ∧
    (pkt.messageID = msgLightStrength →
      (dispatchPacket pkt fd).WifiStrength = fd.WifiStrength ∧
      (dispatchPacket pkt fd).WifiInterference = fd.WifiInterference) ∧
    (pkt.messageID = msgFlightStatus → dispatchPacket pkt fd = fd) ∧
    (pkt.messageID = msgLogHeader → dispatchPacket pkt fd = fd) ∧
    (pkt.messageID ≠ msgFlightStatus → pkt.messageID ≠ msgLightStrength →
      pkt.messageID ≠ msgLogHeader → pkt.messageID ≠ msgWifiStrength →
      dispatchPacket pkt fd = fd) := by
  refine ⟨?_, ?_, ?_, ?_, ?_, ?_, ?_⟩
  · intro h
    simp [dispatchPacket, h, msgWifiStrength, msgFlightStatus, msgLightStrength, msgLogHeader]
  · intro h
    simp [dispatchPacket, h, msgWifiStrength, msgFlightStatus, msgLightStrength, msgLogHeader]
  · intro h
    simp [dispatchPacket, h, msgLightStrength, msgFlightStatus]
  · intro h
    simp [dispatchPacket, h, msgLightStrength, msgFlightStatus]
  · intro h
    simp [dispatchPacket, h, msgFlightStatus]
  · intro h
    simp [dispatchPacket, h, msgLogHeader, msgFlightStatus, msgLightStrength]
  · intro h1 h2 h3 h4
    simp [dispatchPacket, h1, h2, h3, h4]

/-- C8 witness: concrete wifi, light and unknown packets against one
concrete snapshot. -/
theorem dispatch_isolation_witness :
    dispatchPacket { messageID := msgWifiStrength, payload := [7, 9] }
        { LightStrength := 3, WifiStrength := 1, WifiInterference := 2 } =
      { LightStrength := 3, WifiStrength := 7, WifiInterference := 9 } ∧
    dispatchPacket { messageID := msgLightStrength, payload := [5] }
        { LightStrength := 3, WifiStrength := 1, WifiInterference := 2 } =
      { LightStrength := 5, WifiStrength := 1, WifiInterference := 2 } ∧
    dispatchPacket { messageID := 12345 }
        { LightStrength := 3, WifiStrength := 1, WifiInterference := 2 } =
      { LightStrength := 3, WifiStrength := 1, WifiInterference := 2 } :=
  ⟨(dispatch_isolation { messageID := msgWifiStrength, payload := [7, 9] }
      { LightStrength := 3, WifiStrength := 1, WifiInterference := 2 }).1 rfl,
   (dispatch_isolation { messageID := msgLightStrength, payload := [5] }
      { LightStrength := 3, WifiStrength := 1, WifiInterference := 2 }).2.2.1 rfl,
   (dispatch_isolation { messageID := 12345 }
      { LightStrength := 3, WifiStrength := 1, WifiInterference := 2 }).2.2.2.2.2.2
      (by decide) (by decide) (by decide) (by decide)⟩

/-! ## C9 — Hover -/

/-- C9: `Hover` zeroes the four axis values and the throttle of the shared
axis state, transmits nothing on the socket, and leaves every other field
of the link state — phase flags, sequence counter, socket and channel
allocations — unchanged. -/
theorem hover_effects (st : TelloState) :
    (hover st).1.ctrlLx = 0 ∧ (hover st).1.ctrlLy = 0 ∧
    (hover st).1.ctrlRx = 0 ∧ (hover st).1.ctrlRy = 0 ∧
    (hover st).1.ctrlThrottle = 0 ∧
    (hover st).2 = [] ∧
    (hover st).1.ctrlConnecting = st.ctrlConnecting ∧
    (hover st).1.ctrlConnected = st.ctrlConnected ∧
    (hover st).1.ctrlSeq = st.ctrlSeq ∧
    (hover st).1.ctrlConnOpen = st.ctrlConnOpen ∧
    (hover st).1.ctrlStopChanMade = st.ctrlStopChanMade ∧
    (hover st).1.stickChanMade = st.stickChanMade :=
  ⟨rfl, rfl, rfl, rfl, rfl, rfl, rfl, rfl, rfl, rfl, rfl, rfl⟩

/-! ## C10 — StreamFlightData with asAvailable -/

/-- C10: with no stream active, a `StreamFlightData` call with
`asAvailable = true` reaches `log.Fatal` for every `periodMs`: the process
aborts and the call never returns an error value or a channel. -/
theorem streamFlightData_asAvailable_fatal (periodMs : ℕ) :
    streamFlightData false true periodMs = StreamOutcome.fatalAbort ∧
    streamFlightData false true periodMs ≠ StreamOutcome.errAlreadyStreaming ∧
    streamFlightData false true periodMs ≠ StreamOutcome.streamStarted :=
  ⟨rfl, by simp [streamFlightData], by simp [streamFlightData]⟩

end Tello
